import Mathlib

/-!
Verification of the request-handling core of the `usque` HTTP proxy
(`cmd/httpproxy.go`): the credential gate (`authenticate`), the
listener dispatch, the CONNECT handler (`handleHTTPSConnect`), the
forward handler (`handleHTTPProxy`) and the header copier
(`copyHeader`).

The embedding is a shallow one. Go header maps (`map[string][]string`)
become association lists of `(key, values)` pairs with the `Get` and
`Add` operations of `net/http`. Each handler becomes a deterministic
function from an environment, describing the outcomes of its external
calls (dial success, hijack support, copy termination), to a trace of
the externally visible events the handler performs, in program order.
A copy that never terminates leaves the handler blocked, which the
result type records explicitly, since the Go function then never
returns and its deferred closes never run.
-/

set_option autoImplicit false

namespace Usque

/-! ## Header model (`net/http` `Header`, `map[string][]string`) -/

/-- HTTP header map, modelled as an association list of
`(key, values)` pairs. A header map produced by a Go `map` has
pairwise distinct keys; that fact is carried as a hypothesis where a
proof needs it. -/
structure Header where
  entries : List (String × List String)
deriving DecidableEq, Repr

/-- Lookup of the value slice of a key: `h[key]` on a Go map, where a
missing key yields the empty (nil) slice. -/
def lookupEntry : List (String × List String) → String → List String
  | [], _ => []
  | e :: rest, k => if e.1 = k then e.2 else lookupEntry rest k

/-- `Header.Add` from `net/textproto`: append the value to the slice
stored under the key, creating the entry if the key is absent
(`h[key] = append(h[key], value)`). -/
def addEntry : List (String × List String) → String → String → List (String × List String)
  | [], k, v => [(k, [v])]
  | e :: rest, k, v => if e.1 = k then (e.1, e.2 ++ [v]) :: rest else e :: addEntry rest k v

/-- The value slice stored under a key. -/
def Header.lookup (h : Header) (k : String) : List String :=
  lookupEntry h.entries k

/-- `Header.Get` from `net/http`: the first value stored under the
key, or the empty string when the key is absent or its slice is
empty. -/
def Header.get (h : Header) (k : String) : String :=
  (lookupEntry h.entries k).headD ""

/-- `Header.Add` lifted to `Header`. -/
def Header.add (h : Header) (k v : String) : Header :=
  ⟨addEntry h.entries k v⟩

/-- The nested loop of `copyHeader` (httpproxy.go:292-298):
`for k, vv := range src { for _, v := range vv { dst.Add(k, v) } }`. -/
def copyFold : List (String × List String) → List (String × List String) → List (String × List String)
  | dst, [] => dst
  | dst, e :: rest => copyFold (e.2.foldl (fun acc v => addEntry acc e.1 v) dst) rest

/-- `copyHeader` (httpproxy.go:292-298): copy every value of every key
of `src` into `dst` via `Add`. -/
def copyHeader (dst src : Header) : Header :=
  ⟨copyFold dst.entries src.entries⟩

/-- The empty header map (a freshly allocated `http.Header`). -/
def Header.empty : Header := ⟨[]⟩

theorem lookupEntry_addEntry_self (l : List (String × List String)) (k v : String) :
    lookupEntry (addEntry l k v) k = lookupEntry l k ++ [v] := by
  induction l with
  | nil => simp [addEntry, lookupEntry]
  | cons e rest ih =>
    by_cases h : e.1 = k
    · simp [addEntry, lookupEntry, h]
    · simp [addEntry, lookupEntry, h, ih]

theorem lookupEntry_addEntry_ne (l : List (String × List String)) (k v k' : String)
    (hne : k ≠ k') :
    lookupEntry (addEntry l k v) k' = lookupEntry l k' := by
  induction l with
  | nil => simp [addEntry, lookupEntry, hne]
  | cons e rest ih =>
    by_cases h : e.1 = k
    · have h' : e.1 ≠ k' := by
        rw [h]; exact hne
      simp [addEntry, lookupEntry, h, h', hne]
    · by_cases h2 : e.1 = k'
      · simp [addEntry, lookupEntry, h, h2, Ne.symm hne]
      · simp [addEntry, lookupEntry, h, h2, ih]

theorem lookupEntry_foldAdd_self (vs : List String) (l : List (String × List String))
    (k : String) :
    lookupEntry (vs.foldl (fun acc v => addEntry acc k v) l) k = lookupEntry l k ++ vs := by
  induction vs generalizing l with
  | nil => simp
  | cons v vs ih =>
    simp only [List.foldl_cons]
    rw [ih, lookupEntry_addEntry_self, List.append_assoc]
    rfl

theorem lookupEntry_foldAdd_ne (vs : List String) (l : List (String × List String))
    (k k' : String) (hne : k ≠ k') :
    lookupEntry (vs.foldl (fun acc v => addEntry acc k v) l) k' = lookupEntry l k' := by
  induction vs generalizing l with
  | nil => simp
  | cons v vs ih =>
    simp only [List.foldl_cons]
    rw [ih, lookupEntry_addEntry_ne _ _ _ _ hne]

theorem lookupEntry_eq_nil_of_not_mem (l : List (String × List String)) (k : String)
    (h : k ∉ l.map Prod.fst) : lookupEntry l k = [] := by
  induction l with
  | nil => rfl
  | cons e rest ih =>
    simp only [List.map_cons, List.mem_cons, not_or] at h
    have h1 : e.1 ≠ k := fun hh => h.1 hh.symm
    simp [lookupEntry, h1, ih h.2]

/-- For a source header whose keys are pairwise distinct (as a Go map
guarantees), the copy loop appends, under every key, exactly the
source values of that key to the destination values. -/
theorem lookupEntry_copyFold (src : List (String × List String)) :
    ∀ (dst : List (String × List String)) (k : String),
      (src.map Prod.fst).Nodup →
      lookupEntry (copyFold dst src) k = lookupEntry dst k ++ lookupEntry src k := by
  induction src with
  | nil => intro dst k _; simp [copyFold, lookupEntry]
  | cons e rest ih =>
    intro dst k hnd
    simp only [List.map_cons, List.nodup_cons] at hnd
    obtain ⟨h1, h2⟩ := hnd
    by_cases hk : e.1 = k
    · subst hk
      rw [copyFold, ih _ _ h2, lookupEntry_foldAdd_self,
        lookupEntry_eq_nil_of_not_mem rest e.1 h1]
      simp [lookupEntry]
    · rw [copyFold, ih _ _ h2, lookupEntry_foldAdd_ne _ _ _ _ hk]
      simp [lookupEntry, hk]

/-- Copying a well-formed header map into an empty destination
preserves, for every key, the full list of values. -/
theorem copyHeader_empty_lookup (src : Header) (k : String)
    (hnd : (src.entries.map Prod.fst).Nodup) :
    (copyHeader Header.empty src).lookup k = src.lookup k := by
  have := lookupEntry_copyFold src.entries Header.empty.entries k hnd
  simpa [copyHeader, Header.lookup, Header.empty, lookupEntry] using this

/-! ## Requests, the credential gate and the dispatcher -/

/-- The slice of an inbound `*http.Request` the handlers read.
`bodyTok` is an opaque token naming the inbound body stream and `ctx`
an opaque token naming the request cancellation context
(`r.Context()`). -/
structure Request where
  method : String
  host : String
  urlString : String
  header : Header
  bodyTok : Nat
  ctx : Nat
deriving DecidableEq, Repr

/-- `authenticate` (httpproxy.go:216-219): compare the
`Proxy-Authorization` header value of the request with the expected
token, by string equality. -/
def authenticate (r : Request) (expectedAuth : String) : Bool :=
  decide (r.header.get "Proxy-Authorization" = expectedAuth)

/-! ## CONNECT handler (`handleHTTPSConnect`, httpproxy.go:227-252) -/

/-- Outcomes of the external calls `handleHTTPSConnect` makes.
`writeResult` is the return of `clientConn.Write` on the success line
(`some n` bytes written, `none` an error); the code discards it.
`clientToDestCopyEnds` records whether the background
`io.Copy(destConn, clientConn)` goroutine ever terminates; the
handler never joins that goroutine, so the field influences nothing.
`destToClientCopyEnds` records whether the foreground
`io.Copy(clientConn, destConn)` ever returns (EOF or error on its
streams); when it does not, the handler is blocked in the copy
forever. -/
structure ConnectEnv where
  dialOk : Bool
  hijackSupported : Bool
  hijackOk : Bool
  writeResult : Option Nat
  clientToDestCopyEnds : Bool
  destToClientCopyEnds : Bool
deriving DecidableEq, Repr

/-- Externally visible events of a CONNECT session, in program order.
`dial net addr ctx` is `tunNet.DialContext(ctx, net, addr)`;
`respondError msg status` is `http.Error(w, msg, status)`;
`closeDest`/`closeClient` are the deferred `destConn.Close()` and
`clientConn.Close()`; `writeClient s` is `clientConn.Write([]byte(s))`;
`goCopyClientToDest` is the spawn of `go io.Copy(destConn, clientConn)`
and `copyDestToClient` the start of the foreground
`io.Copy(clientConn, destConn)`. -/
inductive ConnectEvent where
  | dial (network : String) (address : String) (ctx : Nat)
  | respondError (msg : String) (status : Nat)
  | closeDest
  | closeClient
  | writeClient (s : String)
  | goCopyClientToDest
  | copyDestToClient
deriving DecidableEq, Repr

/-- Result of running `handleHTTPSConnect`: either the Go function
returned (with the trace of events it performed, the deferred closes
included), or it is blocked forever inside the foreground relay copy
(with the trace performed so far; the deferred closes never run). -/
inductive ConnectResult where
  | returned (trace : List ConnectEvent)
  | blockedInRelay (trace : List ConnectEvent)
deriving DecidableEq, Repr

/-- The events performed so far, whether the handler returned or is
blocked. -/
def ConnectResult.trace : ConnectResult → List ConnectEvent
  | .returned t => t
  | .blockedInRelay t => t

/-- The literal success line of httpproxy.go:248. -/
def connectionEstablished : String := "HTTP/1.1 200 Connection Established\r\n\r\n"

/-- `handleHTTPSConnect` (httpproxy.go:227-252) as a trace function:
dial `"tcp"`/`r.Host` under `r.Context()`; on error respond 503 and
return. Defer `destConn.Close()`. Require the hijack capability and
perform the hijack; on either failure respond 500 and return (the
deferred close of the destination runs). Defer `clientConn.Close()`.
Write the success line, discarding the result, spawn the background
client-to-destination copy, and run the foreground
destination-to-client copy; when that copy returns, the deferred
closes run in LIFO order (client, then destination). -/
def handleHTTPSConnect (r : Request) (env : ConnectEnv) : ConnectResult :=
  if !env.dialOk then
    .returned [.dial "tcp" r.host r.ctx,
      .respondError "Unable to connect to destination" 503]
  else if !env.hijackSupported then
    .returned [.dial "tcp" r.host r.ctx,
      .respondError "Hijacking not supported" 500, .closeDest]
  else if !env.hijackOk then
    .returned [.dial "tcp" r.host r.ctx,
      .respondError "Hijacking failed" 500, .closeDest]
  else if env.destToClientCopyEnds then
    .returned [.dial "tcp" r.host r.ctx,
      .writeClient connectionEstablished,
      .goCopyClientToDest, .copyDestToClient, .closeClient, .closeDest]
  else
    .blockedInRelay [.dial "tcp" r.host r.ctx,
      .writeClient connectionEstablished,
      .goCopyClientToDest, .copyDestToClient]

/-! ## Forward handler (`handleHTTPProxy`, httpproxy.go:260-285) -/

/-- Outcomes of the external calls `handleHTTPProxy` makes.
`newRequestOk` is whether `http.NewRequest` succeeds; `doOk` whether
`client.Do` succeeds; on success the upstream response carries status
`respStatus`, header map `respHeader` (a Go map: keys pairwise
distinct) and a body stream named by the token `respBodyTok`.
`bodyCopyEnds` records whether the final `io.Copy(w, resp.Body)` ever
returns. -/
structure ForwardEnv where
  newRequestOk : Bool
  doOk : Bool
  respStatus : Nat
  respHeader : Header
  respBodyTok : Nat
  bodyCopyEnds : Bool
deriving DecidableEq, Repr

/-- Externally visible events of the forward handler, in program
order. `sendUpstream m u h b` is `client.Do(req)` with the outbound
request exactly as built: `http.NewRequest(r.Method, r.URL.String(),
r.Body)` followed by `req.Header = r.Header`, over the transport that
dials through `tunNet.DialContext`. `writeStatus h s` is
`w.WriteHeader(s)` with `h` the client response header map at that
commit point; `copyBody b` is `io.Copy(w, resp.Body)`;
`closeRespBody` the deferred `resp.Body.Close()`. -/
inductive ForwardEvent where
  | sendUpstream (method : String) (url : String) (header : Header) (bodyTok : Nat)
  | respondError (msg : String) (status : Nat)
  | writeStatus (committedHeader : Header) (status : Nat)
  | copyBody (bodyTok : Nat)
  | closeRespBody
deriving DecidableEq, Repr

/-- Result of running `handleHTTPProxy`: returned, or blocked forever
inside `io.Copy(w, resp.Body)` (the deferred body close never
runs). -/
inductive ForwardResult where
  | returned (trace : List ForwardEvent)
  | blockedInBodyCopy (trace : List ForwardEvent)
deriving DecidableEq, Repr

/-- The events performed so far, whether the handler returned or is
blocked. -/
def ForwardResult.trace : ForwardResult → List ForwardEvent
  | .returned t => t
  | .blockedInBodyCopy t => t

/-- `handleHTTPProxy` (httpproxy.go:260-285) as a trace function:
build the outbound request (method, URL string and body of the
inbound request); on error respond 400 and return, with no send
attempted. Set `req.Header = r.Header` and issue the request through
the tunnel-dialing client; on error respond 503 and return. Defer
`resp.Body.Close()`. Copy the upstream headers into the (empty)
client response header map, write the upstream status, and copy the
upstream body to the client; when the copy returns, the deferred body
close runs. -/
def handleHTTPProxy (r : Request) (env : ForwardEnv) : ForwardResult :=
  if !env.newRequestOk then
    .returned [.respondError "Invalid request" 400]
  else if !env.doOk then
    .returned [.sendUpstream r.method r.urlString r.header r.bodyTok,
      .respondError "Failed to reach destination" 503]
  else if env.bodyCopyEnds then
    .returned [.sendUpstream r.method r.urlString r.header r.bodyTok,
      .writeStatus (copyHeader Header.empty env.respHeader) env.respStatus,
      .copyBody env.respBodyTok, .closeRespBody]
  else
    .blockedInBodyCopy [.sendUpstream r.method r.urlString r.header r.bodyTok,
      .writeStatus (copyHeader Header.empty env.respHeader) env.respStatus,
      .copyBody env.respBodyTok]

/-! ## Listener dispatch (httpproxy.go:186-198) -/

/-- Result of dispatching one request: rejected by the credential
gate (with the status, the challenge header name and value set before
the error, and the error message), or handled by one of the two
handlers. -/
inductive ServeResult where
  | rejected (status : Nat) (challengeName challengeValue msg : String)
  | connectHandled (res : ConnectResult)
  | forwardHandled (res : ForwardResult)
deriving DecidableEq, Repr

/-- The per-request dispatch of httpproxy.go:186-198: when
`authenticate` fails, set `Proxy-Authenticate: Basic realm="Proxy"`
and respond 407 without invoking any handler; otherwise dispatch on
the method, `CONNECT` to `handleHTTPSConnect` and everything else to
`handleHTTPProxy`. -/
def serve (r : Request) (authHeader : String) (cenv : ConnectEnv) (fenv : ForwardEnv) :
    ServeResult :=
  if !authenticate r authHeader then
    .rejected 407 "Proxy-Authenticate" "Basic realm=\"Proxy\"" "Proxy authentication required"
  else if r.method = "CONNECT" then
    .connectHandled (handleHTTPSConnect r cenv)
  else
    .forwardHandled (handleHTTPProxy r fenv)

/-- How many destination dials a CONNECT trace performed. -/
def countDial : List ConnectEvent → Nat
  | [] => 0
  | .dial _ _ _ :: rest => countDial rest + 1
  | _ :: rest => countDial rest

/-- How many deferred destination closes a CONNECT trace performed. -/
def countCloseDest : List ConnectEvent → Nat
  | [] => 0
  | .closeDest :: rest => countCloseDest rest + 1
  | _ :: rest => countCloseDest rest

/-- How many writes to the raw client stream a CONNECT trace
performed. -/
def countWriteClient : List ConnectEvent → Nat
  | [] => 0
  | .writeClient _ :: rest => countWriteClient rest + 1
  | _ :: rest => countWriteClient rest

/-- How many outbound sends (each of which dials through the tunnel
transport) a forward trace performed. -/
def countSend : List ForwardEvent → Nat
  | [] => 0
  | .sendUpstream _ _ _ _ :: rest => countSend rest + 1
  | _ :: rest => countSend rest

/-- How many deferred response body closes a forward trace
performed. -/
def countCloseBody : List ForwardEvent → Nat
  | [] => 0
  | .closeRespBody :: rest => countCloseBody rest + 1
  | _ :: rest => countCloseBody rest

/-- How many destination dials (CONNECT dial, or forward send, which
dials through the transport) a dispatch outcome performed. -/
def serveDialCount : ServeResult → Nat
  | .rejected _ _ _ _ => 0
  | .connectHandled res => countDial res.trace
  | .forwardHandled res => countSend res.trace

/-! ## Concrete fixtures -/

/-- A CONNECT request that carries a non-empty
`Proxy-Authorization` value. -/
def reqWithAuthHeader : Request :=
  ⟨"CONNECT", "example.test:443", "example.test:443",
    ⟨[("Proxy-Authorization", ["Basic Zm9vOmJhcg=="])]⟩, 0, 0⟩

/-- A CONNECT request without any `Proxy-Authorization` header. -/
def reqPlain : Request :=
  ⟨"CONNECT", "example.test:443", "example.test:443", ⟨[]⟩, 1, 2⟩

/-- A plain GET request for the forward handler. -/
def reqGet : Request :=
  ⟨"GET", "example.test:80", "http://example.test/",
    ⟨[("Accept", ["*/*"])]⟩, 3, 5⟩

/-- A CONNECT environment where every external call succeeds and both
relay copies terminate. -/
def cenvHappy : ConnectEnv := ⟨true, true, true, some 39, true, true⟩

/-- A CONNECT environment where the client side has closed: the
background client-to-destination copy has ended, but the silent
destination keeps the foreground destination-to-client copy blocked
forever. -/
def cenvClientClosed : ConnectEnv := ⟨true, true, true, some 39, true, false⟩

/-- A CONNECT environment where the destination dial fails. -/
def cenvDialFail : ConnectEnv := ⟨false, true, true, none, false, false⟩

/-- A CONNECT environment where the response writer does not support
hijacking. -/
def cenvNoHijack : ConnectEnv := ⟨true, false, true, none, false, false⟩

/-- A CONNECT environment where the hijack call itself errors. -/
def cenvHijackErr : ConnectEnv := ⟨true, true, false, none, false, false⟩

/-- A forward environment where everything succeeds, with a
multi-valued upstream response header. -/
def fenvHappy : ForwardEnv :=
  ⟨true, true, 200,
    ⟨[("Set-Cookie", ["a=1", "b=2"]), ("Content-Type", ["text/html"])]⟩, 7, true⟩

/-- A forward environment where building the outbound request
fails. -/
def fenvBadReq : ForwardEnv := ⟨false, true, 200, ⟨[]⟩, 7, true⟩

/-- A forward environment where issuing the outbound request
fails. -/
def fenvDoFail : ForwardEnv := ⟨true, false, 200, ⟨[]⟩, 7, true⟩

/-! ## Claims -/

/-- C1, counterexample: with an empty configured token, a request that
carries the non-empty `Proxy-Authorization` value
`Basic Zm9vOmJhcg==` is NOT accepted — `authenticate` compares that
value against the empty string and returns false, so the dispatcher
rejects with 407 and no handler runs, contradicting the claim that
every request is accepted regardless of the header value. -/
theorem c1_empty_token_counterexample :
    authenticate reqWithAuthHeader "" = false ∧
    serve reqWithAuthHeader "" cenvHappy fenvHappy =
      .rejected 407 "Proxy-Authenticate" "Basic realm=\"Proxy\""
        "Proxy authentication required" := by
  exact ⟨by decide, by decide⟩

/-- C1, amended: with an empty configured token, `authenticate`
accepts exactly the requests whose `Proxy-Authorization` value is the
empty string (in particular requests without the header, since
`Header.Get` then yields the empty string); such requests reach the
handler selected by the method. A request carrying a non-empty
`Proxy-Authorization` value is rejected. -/
theorem c1_empty_token_amended (r : Request) (cenv : ConnectEnv) (fenv : ForwardEnv) :
    (authenticate r "" = true ↔ r.header.get "Proxy-Authorization" = "") ∧
    (r.header.get "Proxy-Authorization" = "" →
      serve r "" cenv fenv =
        (if r.method = "CONNECT" then .connectHandled (handleHTTPSConnect r cenv)
          else .forwardHandled (handleHTTPProxy r fenv))) := by
  constructor
  · simp [authenticate]
  · intro h
    simp [serve, authenticate, h]

/-- C1, witness: a headerless CONNECT request is accepted with an
empty token and reaches the CONNECT handler. -/
theorem c1_empty_token_amended_witness :
    authenticate reqPlain "" = true ∧
    serve reqPlain "" cenvHappy fenvHappy =
      .connectHandled (handleHTTPSConnect reqPlain cenvHappy) := by
  have h := c1_empty_token_amended reqPlain cenvHappy fenvHappy
  refine ⟨h.1.mpr (by decide), ?_⟩
  have h2 := h.2 (by decide)
  simpa [reqPlain] using h2

/-- C2: with a non-empty configured token, `authenticate` succeeds
iff the request's `Proxy-Authorization` value equals the token; when
it fails, the dispatcher responds 407 with the
`Proxy-Authenticate: Basic realm="Proxy"` challenge, invokes neither
handler, and performs no destination dial. -/
theorem c2_nonempty_token_gate (tok : String) (r : Request) (cenv : ConnectEnv)
    (fenv : ForwardEnv) (_htok : tok ≠ "") :
    (authenticate r tok = true ↔ r.header.get "Proxy-Authorization" = tok) ∧
    (r.header.get "Proxy-Authorization" ≠ tok →
      serve r tok cenv fenv =
        .rejected 407 "Proxy-Authenticate" "Basic realm=\"Proxy\""
          "Proxy authentication required" ∧
      serveDialCount (serve r tok cenv fenv) = 0) := by
  refine ⟨by simp [authenticate], ?_⟩
  intro h
  have hs : serve r tok cenv fenv =
      .rejected 407 "Proxy-Authenticate" "Basic realm=\"Proxy\""
        "Proxy authentication required" := by
    simp [serve, authenticate, h]
  exact ⟨hs, by rw [hs]; rfl⟩

/-- C2, witness: a request presenting the wrong credential against
the token `Basic dXNlcjpwdw==` is rejected with 407 and dials
nothing. -/
theorem c2_nonempty_token_gate_witness :
    serve reqWithAuthHeader "Basic dXNlcjpwdw==" cenvHappy fenvHappy =
      .rejected 407 "Proxy-Authenticate" "Basic realm=\"Proxy\""
        "Proxy authentication required" ∧
    serveDialCount (serve reqWithAuthHeader "Basic dXNlcjpwdw==" cenvHappy fenvHappy) = 0 :=
  (c2_nonempty_token_gate "Basic dXNlcjpwdw==" reqWithAuthHeader cenvHappy fenvHappy
    (by decide)).2 (by decide)

/-- C3, counterexample: in an established tunnel where the client
side has closed (the background client-to-destination copy has
ended, `clientToDestCopyEnds = true`) but the destination stays
silent, the handler does not return: it stays blocked in the
foreground `io.Copy(clientConn, destConn)` and the destination
stream is never closed — contradicting the claim that the relay
returns and closes the other side whenever either direction's copy
ends first. -/
theorem c3_relay_counterexample :
    cenvClientClosed.clientToDestCopyEnds = true ∧
    handleHTTPSConnect reqPlain cenvClientClosed =
      .blockedInRelay [.dial "tcp" "example.test:443" 2,
        .writeClient connectionEstablished, .goCopyClientToDest, .copyDestToClient] ∧
    countCloseDest (handleHTTPSConnect reqPlain cenvClientClosed).trace = 0 := by
  exact ⟨rfl, by decide, by decide⟩

/-- C3, amended: the relay returns exactly when the foreground
destination-to-client copy ends (EOF or error); it then closes both
streams via the deferred closes (client first, then destination).
The background client-to-destination copy is never joined, and its
termination alone does not make the relay return. -/
theorem c3_relay_termination (r : Request) (env : ConnectEnv)
    (hd : env.dialOk = true) (hhs : env.hijackSupported = true)
    (hho : env.hijackOk = true) :
    (env.destToClientCopyEnds = true →
      handleHTTPSConnect r env =
        .returned [.dial "tcp" r.host r.ctx, .writeClient connectionEstablished,
          .goCopyClientToDest, .copyDestToClient, .closeClient, .closeDest]) ∧
    (env.destToClientCopyEnds = false →
      handleHTTPSConnect r env =
        .blockedInRelay [.dial "tcp" r.host r.ctx, .writeClient connectionEstablished,
          .goCopyClientToDest, .copyDestToClient]) := by
  constructor <;> intro h <;> simp [handleHTTPSConnect, hd, hhs, hho, h]

/-- C3, witness: in the all-successful environment the relay ends and
both streams are closed, in deferred (LIFO) order. -/
theorem c3_relay_termination_witness :
    handleHTTPSConnect reqPlain cenvHappy =
      .returned [.dial "tcp" reqPlain.host reqPlain.ctx,
        .writeClient connectionEstablished, .goCopyClientToDest, .copyDestToClient,
        .closeClient, .closeDest] :=
  (c3_relay_termination reqPlain cenvHappy rfl rfl rfl).1 rfl

/-- C4: on every exit path of either handler (a returned trace), the
destination connection of the CONNECT handler is closed exactly once
when the dial succeeded and zero times when it failed, and the
upstream response body of the forward handler is closed exactly once
when the request was built and sent successfully and zero times
otherwise. -/
theorem c4_close_exactly_once (r : Request) (cenv : ConnectEnv) (fenv : ForwardEnv)
    (tc : List ConnectEvent) (tf : List ForwardEvent) :
    (handleHTTPSConnect r cenv = .returned tc →
      countCloseDest tc = (if cenv.dialOk then 1 else 0)) ∧
    (handleHTTPProxy r fenv = .returned tf →
      countCloseBody tf = (if fenv.newRequestOk && fenv.doOk then 1 else 0)) := by
  constructor
  · cases hd : cenv.dialOk <;> cases hhs : cenv.hijackSupported <;>
      cases hho : cenv.hijackOk <;> cases hdc : cenv.destToClientCopyEnds <;>
      intro h <;> simp [handleHTTPSConnect, hd, hhs, hho, hdc] at h <;>
      (subst h; rfl)
  · cases hn : fenv.newRequestOk <;> cases hdo : fenv.doOk <;>
      cases hb : fenv.bodyCopyEnds <;>
      intro h <;> simp [handleHTTPProxy, hn, hdo, hb] at h <;>
      (subst h; rfl)

/-- C4, witness: the all-successful CONNECT trace closes the
destination once, and the all-successful forward trace closes the
response body once. -/
theorem c4_close_exactly_once_witness :
    countCloseDest [ConnectEvent.dial "tcp" reqGet.host reqGet.ctx,
      .writeClient connectionEstablished, .goCopyClientToDest, .copyDestToClient,
      .closeClient, .closeDest] = 1 ∧
    countCloseBody [ForwardEvent.sendUpstream reqGet.method reqGet.urlString
        reqGet.header reqGet.bodyTok,
      .writeStatus (copyHeader Header.empty fenvHappy.respHeader) fenvHappy.respStatus,
      .copyBody fenvHappy.respBodyTok, .closeRespBody] = 1 := by
  have h := c4_close_exactly_once reqGet cenvHappy fenvHappy
    [ConnectEvent.dial "tcp" reqGet.host reqGet.ctx,
      .writeClient connectionEstablished, .goCopyClientToDest, .copyDestToClient,
      .closeClient, .closeDest]
    [ForwardEvent.sendUpstream reqGet.method reqGet.urlString reqGet.header reqGet.bodyTok,
      .writeStatus (copyHeader Header.empty fenvHappy.respHeader) fenvHappy.respStatus,
      .copyBody fenvHappy.respBodyTok, .closeRespBody]
  exact ⟨by simpa using h.1 rfl, by simpa using h.2 rfl⟩

/-- C5: once the dial and the hijack have succeeded, the handler
writes exactly the literal bytes
`HTTP/1.1 200 Connection Established\r\n\r\n` to the raw client
stream, and in the event trace that write strictly precedes the
spawn of the background copy and the start of the foreground copy,
so no relayed byte can precede the success line. -/
theorem c5_success_line_first (r : Request) (env : ConnectEnv)
    (hd : env.dialOk = true) (hhs : env.hijackSupported = true)
    (hho : env.hijackOk = true) :
    connectionEstablished = "HTTP/1.1 200 Connection Established\r\n\r\n" ∧
    (handleHTTPSConnect r env).trace =
      .dial "tcp" r.host r.ctx :: .writeClient connectionEstablished ::
        .goCopyClientToDest :: .copyDestToClient ::
        (if env.destToClientCopyEnds then [.closeClient, .closeDest] else []) := by
  refine ⟨rfl, ?_⟩
  cases hdc : env.destToClientCopyEnds <;>
    simp [handleHTTPSConnect, ConnectResult.trace, hd, hhs, hho, hdc]

/-- C5, witness: the concrete all-successful session writes the
success line before both relay copies. -/
theorem c5_success_line_first_witness :
    (handleHTTPSConnect reqPlain cenvHappy).trace =
      .dial "tcp" reqPlain.host reqPlain.ctx :: .writeClient connectionEstablished ::
        .goCopyClientToDest :: .copyDestToClient :: [.closeClient, .closeDest] := by
  simpa using (c5_success_line_first reqPlain cenvHappy rfl rfl rfl).2

/-- C6: the CONNECT handler always dials first, with network `tcp`,
address exactly the request authority `r.Host`, under the request
cancellation context; when the dial fails it responds 503 and
returns, with no success line (and no hijack, copy or close) ever
performed. -/
theorem c6_dial_exact (r : Request) (env : ConnectEnv) :
    (handleHTTPSConnect r env).trace.head? = some (.dial "tcp" r.host r.ctx) ∧
    (env.dialOk = false →
      handleHTTPSConnect r env =
        .returned [.dial "tcp" r.host r.ctx,
          .respondError "Unable to connect to destination" 503] ∧
      countWriteClient (handleHTTPSConnect r env).trace = 0) := by
  constructor
  · cases hd : env.dialOk <;> cases hhs : env.hijackSupported <;>
      cases hho : env.hijackOk <;> cases hdc : env.destToClientCopyEnds <;>
      simp [handleHTTPSConnect, ConnectResult.trace, hd, hhs, hho, hdc]
  · intro h
    have hres : handleHTTPSConnect r env =
        .returned [.dial "tcp" r.host r.ctx,
          .respondError "Unable to connect to destination" 503] := by
      simp [handleHTTPSConnect, h]
    exact ⟨hres, by rw [hres]; rfl⟩

/-- C6, witness: a failing dial yields the 503 response and no write
to the client stream. -/
theorem c6_dial_exact_witness :
    handleHTTPSConnect reqPlain cenvDialFail =
      .returned [.dial "tcp" reqPlain.host reqPlain.ctx,
        .respondError "Unable to connect to destination" 503] ∧
    countWriteClient (handleHTTPSConnect reqPlain cenvDialFail).trace = 0 :=
  (c6_dial_exact reqPlain cenvDialFail).2 rfl

/-- C7: after a successful dial, a missing hijack capability yields a
500 response and the deferred destination close, and a failing
hijack call likewise yields a 500 response and the deferred
destination close; in both traces there is no success line and no
relay copy. -/
theorem c7_hijack_failure (r : Request) (env : ConnectEnv) (hd : env.dialOk = true) :
    (env.hijackSupported = false →
      handleHTTPSConnect r env =
        .returned [.dial "tcp" r.host r.ctx,
          .respondError "Hijacking not supported" 500, .closeDest]) ∧
    (env.hijackSupported = true → env.hijackOk = false →
      handleHTTPSConnect r env =
        .returned [.dial "tcp" r.host r.ctx,
          .respondError "Hijacking failed" 500, .closeDest]) := by
  constructor
  · intro h
    simp [handleHTTPSConnect, hd, h]
  · intro h1 h2
    simp [handleHTTPSConnect, hd, h1, h2]

/-- C7, witness: both hijack failure modes at concrete inputs. -/
theorem c7_hijack_failure_witness :
    handleHTTPSConnect reqPlain cenvNoHijack =
      .returned [.dial "tcp" reqPlain.host reqPlain.ctx,
        .respondError "Hijacking not supported" 500, .closeDest] ∧
    handleHTTPSConnect reqPlain cenvHijackErr =
      .returned [.dial "tcp" reqPlain.host reqPlain.ctx,
        .respondError "Hijacking failed" 500, .closeDest] :=
  ⟨(c7_hijack_failure reqPlain cenvNoHijack rfl).1 rfl,
    (c7_hijack_failure reqPlain cenvHijackErr rfl).2 rfl rfl⟩

/-- C8: on the successful forward path, the outbound request carries
the inbound method, URL string, body stream and the inbound header
map itself (verbatim, no filtering); the client response commits the
header map obtained by copying every upstream header value into an
empty map — which preserves, for every key, the full value list of
the upstream response header (a Go map, so its keys are pairwise
distinct) — then the upstream status, then the upstream body. -/
theorem c8_forward_passthrough (r : Request) (env : ForwardEnv)
    (hn : env.newRequestOk = true) (hdo : env.doOk = true) :
    (handleHTTPProxy r env).trace =
      .sendUpstream r.method r.urlString r.header r.bodyTok ::
        .writeStatus (copyHeader Header.empty env.respHeader) env.respStatus ::
        .copyBody env.respBodyTok ::
        (if env.bodyCopyEnds then [.closeRespBody] else []) ∧
    ((env.respHeader.entries.map Prod.fst).Nodup →
      ∀ k, (copyHeader Header.empty env.respHeader).lookup k = env.respHeader.lookup k) := by
  constructor
  · cases hb : env.bodyCopyEnds <;>
      simp [handleHTTPProxy, ForwardResult.trace, hn, hdo, hb]
  · intro hnd k
    exact copyHeader_empty_lookup env.respHeader k hnd

/-- C8, witness: the concrete successful forward session, with both
values of the multi-valued `Set-Cookie` upstream header preserved. -/
theorem c8_forward_passthrough_witness :
    (handleHTTPProxy reqGet fenvHappy).trace =
      [.sendUpstream reqGet.method reqGet.urlString reqGet.header reqGet.bodyTok,
        .writeStatus (copyHeader Header.empty fenvHappy.respHeader) fenvHappy.respStatus,
        .copyBody fenvHappy.respBodyTok, .closeRespBody] ∧
    (copyHeader Header.empty fenvHappy.respHeader).lookup "Set-Cookie" = ["a=1", "b=2"] := by
  have h := c8_forward_passthrough reqGet fenvHappy rfl rfl
  refine ⟨by simpa using h.1, ?_⟩
  have h2 := h.2 (by decide) "Set-Cookie"
  rw [h2]
  decide

/-- C9: a malformed inbound request (outbound request construction
fails) yields a 400 response with no outbound send (hence no dial)
attempted; a dial/transport failure of the outbound request yields a
503 response after exactly one send attempt (no retry). -/
theorem c9_forward_errors (r : Request) (env : ForwardEnv) :
    (env.newRequestOk = false →
      handleHTTPProxy r env = .returned [.respondError "Invalid request" 400] ∧
      countSend (handleHTTPProxy r env).trace = 0) ∧
    (env.newRequestOk = true → env.doOk = false →
      handleHTTPProxy r env =
        .returned [.sendUpstream r.method r.urlString r.header r.bodyTok,
          .respondError "Failed to reach destination" 503] ∧
      countSend (handleHTTPProxy r env).trace = 1) := by
  constructor
  · intro h
    have hres : handleHTTPProxy r env =
        .returned [.respondError "Invalid request" 400] := by
      simp [handleHTTPProxy, h]
    exact ⟨hres, by rw [hres]; rfl⟩
  · intro h1 h2
    have hres : handleHTTPProxy r env =
        .returned [.sendUpstream r.method r.urlString r.header r.bodyTok,
          .respondError "Failed to reach destination" 503] := by
      simp [handleHTTPProxy, h1, h2]
    exact ⟨hres, by rw [hres]; rfl⟩

/-- C9, witness: both forward failure modes at concrete inputs. -/
theorem c9_forward_errors_witness :
    (handleHTTPProxy reqGet fenvBadReq = .returned [.respondError "Invalid request" 400] ∧
      countSend (handleHTTPProxy reqGet fenvBadReq).trace = 0) ∧
    (handleHTTPProxy reqGet fenvDoFail =
        .returned [.sendUpstream reqGet.method reqGet.urlString reqGet.header reqGet.bodyTok,
          .respondError "Failed to reach destination" 503] ∧
      countSend (handleHTTPProxy reqGet fenvDoFail).trace = 1) :=
  ⟨(c9_forward_errors reqGet fenvBadReq).1 rfl,
    (c9_forward_errors reqGet fenvDoFail).2 rfl rfl⟩

/-- C10: the result of writing the success line to the hijacked
client connection is discarded — the handler outcome is identical
for any two write results (full write, partial write or error), and
after a successful dial and hijack the handler unconditionally
proceeds to spawn the background copy and run the foreground copy,
with no error reported to either side. -/
theorem c10_write_result_discarded (r : Request) (d hs ho : Bool) (w w' : Option Nat)
    (c2d d2c : Bool) :
    handleHTTPSConnect r ⟨d, hs, ho, w, c2d, d2c⟩ =
      handleHTTPSConnect r ⟨d, hs, ho, w', c2d, d2c⟩ ∧
    (d = true → hs = true → ho = true →
      (handleHTTPSConnect r ⟨d, hs, ho, w, c2d, d2c⟩).trace =
        .dial "tcp" r.host r.ctx :: .writeClient connectionEstablished ::
          .goCopyClientToDest :: .copyDestToClient ::
          (if d2c then [.closeClient, .closeDest] else [])) := by
  constructor
  · rfl
  · intro h1 h2 h3
    subst h1; subst h2; subst h3
    cases d2c <;> rfl

/-- C10, witness: a failed write (`none`) and a full write
(`some 39`) of the success line produce the same outcome, which
still performs both relay copies. -/
theorem c10_write_result_discarded_witness :
    handleHTTPSConnect reqPlain ⟨true, true, true, none, true, true⟩ =
      handleHTTPSConnect reqPlain ⟨true, true, true, some 39, true, true⟩ ∧
    (handleHTTPSConnect reqPlain ⟨true, true, true, none, true, true⟩).trace =
      .dial "tcp" reqPlain.host reqPlain.ctx :: .writeClient connectionEstablished ::
        .goCopyClientToDest :: .copyDestToClient :: [.closeClient, .closeDest] := by
  have h := c10_write_result_discarded reqPlain true true true none (some 39) true true
  exact ⟨h.1, by simpa using h.2 rfl rfl rfl⟩

end Usque
